import Mathlib

/-!
Shallow embedding of the ReActMCP tool servers
(`src/servers/exa_web_search.py` and `src/servers/fire_crawl.py`).

Modelling conventions:
* The external service clients (the `Exa` handle and the `FirecrawlApp`) are
  represented by records of response functions.  Each function returns
  `Except String R`: `.ok r` models the client returning the raw payload `r`,
  `.error m` models the client raising an exception whose `str()` is `m`.
* Python dictionaries of keyword arguments (the translated request built by
  the tools) are association lists `List (String × Val)` in insertion order.
* Optional response fields are `Option` values; Python truthiness tests
  (`if x:`) on optional strings / lists / ints are the `truthy*` helpers
  (absent, empty string, empty list and `0` are falsy).
* Instants are seconds since the epoch (`Nat`); `datetime.now() -
  timedelta(days=d)` is `now - d * 86400` and `strftime("%Y-%m-%dT%H:%M:%SZ")`
  is `formatTimestamp`.
* Every tool operation returns `String` (never `Except`): the Python
  `try/except` wrapping the whole body is modelled by the error arms of the
  matches, which produce exactly the f-string of the `except` clause.
-/

namespace ReActMCP

/-- Python truthiness of an optional string: `None` and `""` are falsy. -/
def truthyOptStr : Option String → Bool
  | none => false
  | some s => !s.isEmpty

/-- Python truthiness of an optional list: `None` and `[]` are falsy. -/
def truthyOptList {α : Type} : Option (List α) → Bool
  | none => false
  | some l => !l.isEmpty

/-- Python truthiness of an optional natural number: `None` and `0` are falsy. -/
def truthyOptNat : Option Nat → Bool
  | none => false
  | some n => n != 0

/-- A value stored in a keyword-argument dictionary (the `search_args` dict). -/
inductive Val where
  | int (n : Int)
  | str (s : String)
  | strList (l : List String)
  deriving DecidableEq, Repr

/-- Dictionary lookup on an association list (first binding wins, as in a
Python dict built by successive distinct-key insertions). -/
def lookupKey (k : String) : List (String × Val) → Option Val
  | [] => none
  | (k2, v) :: rest => if k2 = k then some v else lookupKey k rest

/-- Concatenation of a list of strings (the value accumulated by the Python
`+=` formatting loops). -/
def concatAll : List String → String
  | [] => ""
  | s :: rest => s ++ concatAll rest

/-- `enumerate` starting at a given index: pairs each element with its
1-based (or `i`-based) position. -/
def enumFrom {α : Type} : Nat → List α → List (Nat × α)
  | _, [] => []
  | i, a :: rest => (i, a) :: enumFrom (i + 1) rest

/-- Left-pad the decimal representation of `n` with zeros to width `w`
(`strftime`'s zero-padded numeric fields). -/
def zpad (w : Nat) (n : Nat) : String :=
  String.mk (List.replicate (w - (toString n).length) '0') ++ toString n

/-- Convert a count of days since 1970-01-01 to a Gregorian (year, month,
day) triple; the standard civil-from-days computation. -/
def civilFromDays (days : Nat) : Nat × Nat × Nat :=
  let z := days + 719468
  let era := z / 146097
  let doe := z % 146097
  let yoe := (doe - doe / 1460 + doe / 36524 - doe / 146096) / 365
  let y := yoe + era * 400
  let doy := doe - (365 * yoe + yoe / 4 - yoe / 100)
  let mp := (5 * doy + 2) / 153
  let d := doy - (153 * mp + 2) / 5 + 1
  let m := if mp < 10 then mp + 3 else mp - 9
  (if m ≤ 2 then y + 1 else y, m, d)

/-- `strftime("%Y-%m-%dT%H:%M:%SZ")` on an instant given as seconds since
the epoch. -/
def formatTimestamp (t : Nat) : String :=
  zpad 4 (civilFromDays (t / 86400)).1 ++ "-" ++
    zpad 2 (civilFromDays (t / 86400)).2.1 ++ "-" ++
    zpad 2 (civilFromDays (t / 86400)).2.2 ++ "T" ++
    zpad 2 (t % 86400 / 3600) ++ ":" ++
    zpad 2 (t % 86400 % 3600 / 60) ++ ":" ++
    zpad 2 (t % 86400 % 60) ++ "Z"

/-! ### exa_web_search.py -/

/-- The `parameters` entry of the module-level `websearch_config` dict. -/
structure WebsearchParameters where
  default_num_results : Int
  include_domains : List String
  deriving Repr

/-- `websearch_config`: default of 5 results and an empty domain list. -/
def websearch_config : WebsearchParameters :=
  { default_num_results := 5, include_domains := [] }

/-- `num_results or websearch_config["parameters"]["default_num_results"]`:
Python `or` falls through to the default when the argument is `None` or `0`. -/
def resolve_num_results (num_results : Option Int) : Int :=
  match num_results with
  | none => websearch_config.default_num_results
  | some n => if n = 0 then websearch_config.default_num_results else n

/-- The `search_args` dict built by `search_web`. -/
def buildSearchArgs (num_results : Option Int) : List (String × Val) :=
  [("num_results", Val.int (resolve_num_results num_results))]

/-- The `search_args` dict built by `advanced_search_web`, in insertion
order: `num_results`, then optionally `include_domains`, `include_text`
and `start_published_date`.  `now` is the instant of `datetime.now()`. -/
def buildAdvancedSearchArgs (now : Nat) (num_results : Option Int)
    (include_domains : Option (List String)) (include_text : Option String)
    (max_age_days : Option Nat) : List (String × Val) :=
  ("num_results", Val.int (resolve_num_results num_results)) ::
    ((if truthyOptList include_domains then
        [("include_domains", Val.strList (include_domains.getD []))]
      else if !websearch_config.include_domains.isEmpty then
        [("include_domains", Val.strList websearch_config.include_domains)]
      else []) ++
     (if truthyOptStr include_text then
        [("include_text", Val.strList [include_text.getD ""])]
      else []) ++
     (if truthyOptNat max_age_days then
        [("start_published_date",
          Val.str (formatTimestamp (now - (max_age_days.getD 0) * 86400)))]
      else []))

/-- One entry of an Exa search response.  `none` models both an absent
attribute (`hasattr` false) and `None`. -/
structure ExaResultItem where
  title : Option String
  url : String
  published_date : Option String
  summary : Option String
  deriving DecidableEq, Repr

/-- An Exa search response: the `.results` sequence. -/
structure ExaSearchResponse where
  results : List ExaResultItem
  deriving DecidableEq, Repr

/-- The title/link line of one formatted search entry:
`f"**{idx}.** [{title}]({url}){published_date}\n"`. -/
def searchEntryLine (idx : Nat) (r : ExaResultItem) : String :=
  "**" ++ toString idx ++ ".** " ++
    "[" ++ (if truthyOptStr r.title then r.title.getD "" else "No title") ++
    "](" ++ r.url ++ ")" ++
    (if truthyOptStr r.published_date then
      " (Published: " ++ r.published_date.getD "" ++ ")"
    else "") ++ "\n"

/-- One formatted search entry: the title line followed by the summary
block when a summary is present, else a blank line. -/
def searchEntryBlock (idx : Nat) (r : ExaResultItem) : String :=
  searchEntryLine idx r ++
    (if truthyOptStr r.summary then
      "> **Summary:** " ++ r.summary.getD "" ++ "\n\n"
    else "\n")

/-- The `for idx, result in enumerate(search_results.results, 1)` loop. -/
def searchEntriesFrom : Nat → List ExaResultItem → String
  | _, [] => ""
  | idx, r :: rest => searchEntryBlock idx r ++ searchEntriesFrom (idx + 1) rest

/-- `format_search_results`. -/
def format_search_results (search_results : ExaSearchResponse) : String :=
  if search_results.results.isEmpty then "No results found."
  else "### Search Results:\n\n" ++ searchEntriesFrom 1 search_results.results

/-- The fixed `summary={"query": ...}` argument of `search_and_contents`. -/
def summaryQuery : String := "Main points and key takeaways"

/-- The module-level `exa` client: the configured API key together with the
response behaviour of `search_and_contents` (query, summary query, keyword
arguments). -/
structure ExaClient where
  api_key : Option String
  search_and_contents :
    String → String → List (String × Val) → Except String ExaSearchResponse

/-- Tool `search_web`.  The error arm is the `except` clause's f-string. -/
def search_web (exa : ExaClient) (query : String) (num_results : Option Int) :
    String :=
  match exa.search_and_contents query summaryQuery (buildSearchArgs num_results) with
  | .ok search_results => format_search_results search_results
  | .error e => "An error occurred while searching with Exa: " ++ e

/-- Tool `advanced_search_web`. -/
def advanced_search_web (exa : ExaClient) (now : Nat) (query : String)
    (num_results : Option Int) (include_domains : Option (List String))
    (include_text : Option String) (max_age_days : Option Nat) : String :=
  match exa.search_and_contents query summaryQuery
      (buildAdvancedSearchArgs now num_results include_domains include_text
        max_age_days) with
  | .ok search_results => format_search_results search_results
  | .error e => "An error occurred while searching with Exa: " ++ e

/-! ### fire_crawl.py -/

/-- The `metadata` dict of a scrape payload. -/
structure ScrapeMetadata where
  title : Option String
  description : Option String
  sourceURL : Option String
  deriving DecidableEq, Repr

/-- The `data` dict of a scrape payload. -/
structure ScrapeData where
  markdown : Option String
  metadata : Option ScrapeMetadata
  deriving DecidableEq, Repr

/-- A raw scrape response. -/
structure ScrapeResponse where
  success : Bool
  error : Option String
  data : Option ScrapeData
  deriving DecidableEq, Repr

/-- The `metadata` dict of one crawled page. -/
structure CrawlPageMetadata where
  title : Option String
  sourceURL : Option String
  deriving DecidableEq, Repr

/-- One crawled page in a crawl status snapshot. -/
structure CrawlPage where
  metadata : Option CrawlPageMetadata
  deriving DecidableEq, Repr

/-- A crawl status snapshot (`check_crawl_status` raw response).  A falsy
response (`None` or an empty dict) is modelled as `none` at the use site. -/
structure CrawlStatus where
  status : Option String
  totalCount : Option Int
  creditsUsed : Option Int
  expiresAt : Option String
  data : Option (List CrawlPage)
  deriving DecidableEq, Repr

/-- A raw `crawl_url` response. -/
structure CrawlStartResponse where
  jobId : Option String
  error : Option String
  deriving DecidableEq, Repr

/-- A raw `map_url` response. -/
structure MapResult where
  success : Bool
  error : Option String
  links : Option (List String)
  deriving DecidableEq, Repr

/-- A JSON value (the opaque extraction payload and schema). -/
inductive JVal where
  | null
  | bool (b : Bool)
  | int (n : Int)
  | str (s : String)
  | arr (elems : List JVal)
  | obj (fields : List (String × JVal))

/-- A raw `extract` response. -/
structure ExtractResponse where
  success : Bool
  error : Option String
  data : Option JVal

/-- A lowercase hexadecimal digit. -/
def hexDigit (n : Nat) : Char :=
  if n < 10 then Char.ofNat (48 + n) else Char.ofNat (87 + n)

/-- A `\uXXXX` escape. -/
def uEscape (n : Nat) : String :=
  "\\u" ++ String.mk [hexDigit (n / 4096 % 16), hexDigit (n / 256 % 16),
    hexDigit (n / 16 % 16), hexDigit (n % 16)]

/-- `json.dumps` escaping of one character (default `ensure_ascii=True`). -/
def jsonEscapeChar (c : Char) : String :=
  if c = '"' then "\\\""
  else if c = '\\' then "\\\\"
  else if c = '\n' then "\\n"
  else if c = '\t' then "\\t"
  else if c = '\r' then "\\r"
  else if c.toNat = 8 then "\\b"
  else if c.toNat = 12 then "\\f"
  else if c.toNat < 32 then uEscape c.toNat
  else if c.toNat < 127 then String.singleton c
  else if c.toNat < 65536 then uEscape c.toNat
  else uEscape (55296 + (c.toNat - 65536) / 1024) ++
    uEscape (56320 + (c.toNat - 65536) % 1024)

/-- A JSON string literal. -/
def jsonQuote (s : String) : String :=
  "\"" ++ concatAll (s.data.map jsonEscapeChar) ++ "\""

/-- A run of spaces (the indentation of `json.dumps(..., indent=2)`). -/
def spaces (n : Nat) : String := String.mk (List.replicate n ' ')

mutual
/-- `json.dumps(v, indent=2)` at a given enclosing indentation. -/
def dumpsJ : Nat → JVal → String
  | _, .null => "null"
  | _, .bool b => cond b "true" "false"
  | _, .int n => toString n
  | _, .str s => jsonQuote s
  | _, .arr [] => "[]"
  | ind, .arr (e :: es) =>
      "[\n" ++ dumpsList (ind + 2) e es ++ "\n" ++ spaces ind ++ "]"
  | _, .obj [] => "\x7b\x7d"
  | ind, .obj (f :: fs) =>
      "\x7b\n" ++ dumpsFields (ind + 2) f fs ++ "\n" ++ spaces ind ++ "\x7d"
termination_by _ v => sizeOf v
decreasing_by all_goals (simp_arith)

/-- The comma-separated, newline-delimited items of a JSON array. -/
def dumpsList : Nat → JVal → List JVal → String
  | ind, e, [] => spaces ind ++ dumpsJ ind e
  | ind, e, e2 :: es =>
      spaces ind ++ dumpsJ ind e ++ ",\n" ++ dumpsList ind e2 es
termination_by _ e es => sizeOf e + sizeOf es
decreasing_by all_goals (simp_arith)

/-- The comma-separated, newline-delimited members of a JSON object. -/
def dumpsFields : Nat → String × JVal → List (String × JVal) → String
  | ind, (k, v), [] => spaces ind ++ jsonQuote k ++ ": " ++ dumpsJ ind v
  | ind, (k, v), f2 :: fs =>
      spaces ind ++ jsonQuote k ++ ": " ++ dumpsJ ind v ++ ",\n" ++
        dumpsFields ind f2 fs
termination_by _ f fs => sizeOf f + sizeOf fs
decreasing_by all_goals (simp_arith)
end

/-- The response behaviour of a `FirecrawlApp`: one `Except`-valued function
per client method, `.error m` modelling a raised exception with message `m`. -/
structure FirecrawlBehavior where
  scrape_url : String → List String → Except String ScrapeResponse
  crawl_url : String → Int → Int → List String → Except String CrawlStartResponse
  check_crawl_status : String → Except String (Option CrawlStatus)
  map_url : String → Bool → Except String MapResult
  extract : List String → String → JVal → Except String ExtractResponse

/-- A constructed `FirecrawlApp`: the credential it holds plus its response
behaviour. -/
structure FirecrawlApp where
  api_key : String
  behavior : FirecrawlBehavior

/-- `get_firecrawl_app`: raises `ValueError` when the key is absent, else
constructs the client from the key. -/
def get_firecrawl_app (api_key : Option String) (behavior : FirecrawlBehavior) :
    Except String FirecrawlApp :=
  match api_key with
  | none => .error ("FIRECRAWL_API_KEY environment variable not set. " ++
      "Please set this variable in a .env file or system environment.")
  | some k => .ok { api_key := k, behavior := behavior }

/-- `format_markdown_with_metadata`. -/
def format_markdown_with_metadata (response : ScrapeResponse) : String :=
  if !response.success then
    "Error: Failed to retrieve data. " ++ response.error.getD ""
  else
    "# " ++ ((response.data.getD ⟨none, none⟩).metadata.getD
        ⟨none, none, none⟩).title.getD "Scraped Content" ++ "\n\n" ++
      (if truthyOptStr ((response.data.getD ⟨none, none⟩).metadata.getD
          ⟨none, none, none⟩).description then
        "*" ++ ((response.data.getD ⟨none, none⟩).metadata.getD
          ⟨none, none, none⟩).description.getD "" ++ "*\n\n"
      else "") ++
      "**Source URL:** " ++ ((response.data.getD ⟨none, none⟩).metadata.getD
        ⟨none, none, none⟩).sourceURL.getD "Unknown" ++ "\n\n" ++
      "---\n\n" ++ (response.data.getD ⟨none, none⟩).markdown.getD ""

/-- The `for idx, page in enumerate(status.get('data'))` loop (the printed
index is `idx + 1`, so the accumulator here starts at 1). -/
def crawlPagesFrom : Nat → List CrawlPage → String
  | _, [] => ""
  | idx, page :: rest =>
      toString idx ++ ". **" ++
        (page.metadata.getD ⟨none, none⟩).title.getD "Unknown Title" ++ "**\n" ++
        "   URL: " ++
        (page.metadata.getD ⟨none, none⟩).sourceURL.getD "Unknown URL" ++ "\n" ++
        crawlPagesFrom (idx + 1) rest

/-- `format_crawl_status`; `none` is a falsy status dict. -/
def format_crawl_status (st : Option CrawlStatus) : String :=
  match st with
  | none => "Error: Failed to retrieve crawl status."
  | some status =>
      "# Crawl Status\n\n" ++
        "**Current Status:** " ++ status.status.getD "Unknown" ++ "\n" ++
        "**Total Pages:** " ++ toString (status.totalCount.getD 0) ++ "\n" ++
        "**Credits Used:** " ++ toString (status.creditsUsed.getD 0) ++ "\n" ++
        (if truthyOptStr status.expiresAt then
          "**Expires At:** " ++ status.expiresAt.getD "" ++ "\n"
        else "") ++
        (match status.data with
          | some pages =>
            if pages.isEmpty then ""
            else "\n## Crawled Pages: " ++ toString pages.length ++ "\n\n" ++
              crawlPagesFrom 1 pages
          | none => "")

/-- The `for idx, link in enumerate(links)` loop (printed index `idx + 1`). -/
def mapLinksFrom : Nat → List String → String
  | _, [] => ""
  | idx, link :: rest =>
      toString idx ++ ". " ++ link ++ "\n" ++ mapLinksFrom (idx + 1) rest

/-- `format_mapped_links`. -/
def format_mapped_links (map_result : MapResult) : String :=
  if !map_result.success then
    "Error: Failed to map the website. " ++ map_result.error.getD ""
  else
    "# Website Map Results\n\n" ++ "Found " ++
      toString (map_result.links.getD []).length ++ " links:\n\n" ++
      mapLinksFrom 1 (map_result.links.getD [])

/-- Tool `scrape_url`.  Both error arms are the single Python `except`
clause, which covers `get_firecrawl_app` and the client call alike. -/
def scrape_url (api_key : Option String) (b : FirecrawlBehavior) (url : String)
    (formats : List String) : String :=
  match get_firecrawl_app api_key b with
  | .error e => "An error occurred while scraping " ++ url ++ ": " ++ e
  | .ok app =>
    match app.behavior.scrape_url url formats with
    | .ok response => format_markdown_with_metadata response
    | .error e => "An error occurred while scraping " ++ url ++ ": " ++ e

/-- Tool `crawl_website`. -/
def crawl_website (api_key : Option String) (b : FirecrawlBehavior)
    (url : String) (limit : Int) (max_depth : Int) (formats : List String) :
    String :=
  match get_firecrawl_app api_key b with
  | .error e =>
    "An error occurred while starting the crawl job for " ++ url ++ ": " ++ e
  | .ok app =>
    match app.behavior.crawl_url url limit max_depth formats with
    | .error e =>
      "An error occurred while starting the crawl job for " ++ url ++ ": " ++ e
    | .ok crawl_result =>
      if truthyOptStr crawl_result.jobId then
        "# Crawl Job Started\n\n" ++ "**Job ID:** " ++
          crawl_result.jobId.getD "" ++ "\n\n" ++
          "To check the status of this crawl, use the `check_crawl_status` tool with this Job ID."
      else "Error: Failed to start crawl job. " ++ crawl_result.error.getD ""

/-- Tool `check_crawl_status`. -/
def check_crawl_status (api_key : Option String) (b : FirecrawlBehavior)
    (job_id : String) : String :=
  match get_firecrawl_app api_key b with
  | .error e =>
    "An error occurred while checking the crawl status for job " ++ job_id ++
      ": " ++ e
  | .ok app =>
    match app.behavior.check_crawl_status job_id with
    | .ok status => format_crawl_status status
    | .error e =>
      "An error occurred while checking the crawl status for job " ++ job_id ++
        ": " ++ e

/-- Tool `map_website`. -/
def map_website (api_key : Option String) (b : FirecrawlBehavior) (url : String)
    (include_subdomains : Bool) : String :=
  match get_firecrawl_app api_key b with
  | .error e => "An error occurred while mapping the website " ++ url ++ ": " ++ e
  | .ok app =>
    match app.behavior.map_url url include_subdomains with
    | .ok map_result => format_mapped_links map_result
    | .error e =>
      "An error occurred while mapping the website " ++ url ++ ": " ++ e

/-- Tool `extract_structured_data`. -/
def extract_structured_data (api_key : Option String) (b : FirecrawlBehavior)
    (urls : List String) (prompt : String) (schema : JVal) : String :=
  match get_firecrawl_app api_key b with
  | .error e => "An error occurred while extracting structured data: " ++ e
  | .ok app =>
    match app.behavior.extract urls prompt schema with
    | .error e => "An error occurred while extracting structured data: " ++ e
    | .ok data =>
      if !data.success then
        "Error: Failed to extract structured data. " ++ data.error.getD ""
      else
        "# Extracted Structured Data\n\n```json\n" ++
          dumpsJ 0 (data.data.getD (JVal.obj [])) ++ "\n```"

/-! ### Concrete behaviours used by the witness theorems -/

/-- An Exa client whose every call raises with message `boom`. -/
def errExaClient : ExaClient :=
  { api_key := some "key", search_and_contents := fun _ _ _ => .error "boom" }

/-- A Firecrawl behaviour whose every call raises with message `boom`. -/
def errFirecrawlBehavior : FirecrawlBehavior :=
  { scrape_url := fun _ _ => .error "boom"
    crawl_url := fun _ _ _ _ => .error "boom"
    check_crawl_status := fun _ => .error "boom"
    map_url := fun _ _ => .error "boom"
    extract := fun _ _ _ => .error "boom" }

/-- A Firecrawl behaviour whose crawl start succeeds without a `jobId`. -/
def noJobBehavior : FirecrawlBehavior :=
  { errFirecrawlBehavior with
    crawl_url := fun _ _ _ _ =>
      .ok { jobId := none, error := some "quota exceeded" } }

/-- A Firecrawl behaviour whose status check returns a falsy snapshot. -/
def noStatusBehavior : FirecrawlBehavior :=
  { errFirecrawlBehavior with check_crawl_status := fun _ => .ok none }

/-- The two-entry stub response of the spec's `search_web` scenario: entry 1
has a summary and a published date, entry 2 has neither. -/
def sampleResults : List ExaResultItem :=
  [{ title := some "AI News", url := "https://a.example",
     published_date := some "2025-01-01", summary := some "Key takeaways" },
   { title := none, url := "https://b.example",
     published_date := none, summary := none }]

/-- A 100-character credential, longer than any fixed-behaviour report. -/
def longKey : String := String.mk (List.replicate 100 'a')

/-! ### Helper lemmas -/

/-- The entry-formatting loop is the concatenation of the per-entry blocks of
the enumerated result list. -/
theorem searchEntriesFrom_eq_concat (l : List ExaResultItem) :
    ∀ i, searchEntriesFrom i l =
      concatAll ((enumFrom i l).map fun p => searchEntryBlock p.1 p.2) := by
  induction l with
  | nil => intro i; rfl
  | cons r rest ih =>
    intro i
    simp [searchEntriesFrom, enumFrom, concatAll, ih]

/-- The link-formatting loop is the concatenation of the per-link lines of
the enumerated link list. -/
theorem mapLinksFrom_eq_concat (l : List String) :
    ∀ i, mapLinksFrom i l =
      concatAll ((enumFrom i l).map fun p => toString p.1 ++ ". " ++ p.2 ++ "\n") := by
  induction l with
  | nil => intro i; rfl
  | cons s rest ih =>
    intro i
    simp [mapLinksFrom, enumFrom, concatAll, ih]

/-- The indices produced by enumeration from `i` are `i, i+1, ...`. -/
theorem enumFrom_map_fst {α : Type} (l : List α) :
    ∀ i, (enumFrom i l).map Prod.fst = (List.range l.length).map (· + i) := by
  induction l with
  | nil => intro i; rfl
  | cons a rest ih =>
    intro i
    simp only [enumFrom, List.map_cons, List.length_cons,
      List.range_succ_eq_map, List.map_map, ih, Nat.zero_add]
    refine congrArg (List.cons i) ?_
    exact List.map_congr_left fun x _ => by
      simp only [Function.comp_apply]
      omega

/-- Enumeration preserves the elements in order. -/
theorem enumFrom_map_snd {α : Type} (l : List α) :
    ∀ i, (enumFrom i l).map Prod.snd = l := by
  induction l with
  | nil => intro i; rfl
  | cons a rest ih =>
    intro i
    simp [enumFrom, ih]

/-- A string strictly longer than `r` does not occur inside `r`. -/
theorem not_substring_of_length_lt (r k : String) (h : r.length < k.length) :
    ¬ ∃ pre post, r = pre ++ k ++ post := by
  rintro ⟨pre, post, hEq⟩
  have h2 : r.length = pre.length + k.length + post.length := by
    rw [hEq]; simp [String.length_append]
  omega

/-! ### Claim theorems -/

/-- C1: every tool operation (`search_web`, `advanced_search_web`,
`scrape_url`, `crawl_website`, `check_crawl_status`, `map_website`,
`extract_structured_data`) is a total function into text reports; when the
external client raises an exception with message `m` at the operation's
call, the returned report is the operation's error sentence with `m`
interpolated verbatim, and no exception propagates (the operations return
`String`, never an exceptional value). -/
theorem c1_error_never_propagates :
    (∀ (exa : ExaClient) (q : String) (n : Option Int) (m : String),
      exa.search_and_contents q summaryQuery (buildSearchArgs n) = .error m →
      search_web exa q n = "An error occurred while searching with Exa: " ++ m)
  ∧ (∀ (exa : ExaClient) (now : Nat) (q : String) (n : Option Int)
      (doms : Option (List String)) (txt : Option String) (age : Option Nat)
      (m : String),
      exa.search_and_contents q summaryQuery
          (buildAdvancedSearchArgs now n doms txt age) = .error m →
      advanced_search_web exa now q n doms txt age =
        "An error occurred while searching with Exa: " ++ m)
  ∧ (∀ (k : String) (b : FirecrawlBehavior) (url : String)
      (formats : List String) (m : String),
      b.scrape_url url formats = .error m →
      scrape_url (some k) b url formats =
        "An error occurred while scraping " ++ url ++ ": " ++ m)
  ∧ (∀ (k : String) (b : FirecrawlBehavior) (url : String)
      (limit max_depth : Int) (formats : List String) (m : String),
      b.crawl_url url limit max_depth formats = .error m →
      crawl_website (some k) b url limit max_depth formats =
        "An error occurred while starting the crawl job for " ++ url ++ ": " ++ m)
  ∧ (∀ (k : String) (b : FirecrawlBehavior) (job_id : String) (m : String),
      b.check_crawl_status job_id = .error m →
      check_crawl_status (some k) b job_id =
        "An error occurred while checking the crawl status for job " ++
          job_id ++ ": " ++ m)
  ∧ (∀ (k : String) (b : FirecrawlBehavior) (url : String) (subs : Bool)
      (m : String),
      b.map_url url subs = .error m →
      map_website (some k) b url subs =
        "An error occurred while mapping the website " ++ url ++ ": " ++ m)
  ∧ (∀ (k : String) (b : FirecrawlBehavior) (urls : List String)
      (prompt : String) (schema : JVal) (m : String),
      b.extract urls prompt schema = .error m →
      extract_structured_data (some k) b urls prompt schema =
        "An error occurred while extracting structured data: " ++ m) := by
  refine ⟨?_, ?_, ?_, ?_, ?_, ?_, ?_⟩
  · intro exa q n m h
    simp [search_web, h]
  · intro exa now q n doms txt age m h
    simp [advanced_search_web, h]
  · intro k b url formats m h
    simp [scrape_url, get_firecrawl_app, h]
  · intro k b url limit max_depth formats m h
    simp [crawl_website, get_firecrawl_app, h]
  · intro k b job_id m h
    simp [check_crawl_status, get_firecrawl_app, h]
  · intro k b url subs m h
    simp [map_website, get_firecrawl_app, h]
  · intro k b urls prompt schema m h
    simp [extract_structured_data, get_firecrawl_app, h]

/-- C1 witness: each of the seven operations, run against a client whose
call raises with message `boom`, returns its error sentence with `boom`
interpolated. -/
theorem c1_error_never_propagates_witness :
    search_web errExaClient "q" none =
      "An error occurred while searching with Exa: boom"
  ∧ advanced_search_web errExaClient 1700000000 "q" none none none none =
      "An error occurred while searching with Exa: boom"
  ∧ scrape_url (some "key") errFirecrawlBehavior "https://e" ["markdown"] =
      "An error occurred while scraping https://e: boom"
  ∧ crawl_website (some "key") errFirecrawlBehavior "https://e" 10 2 ["markdown"] =
      "An error occurred while starting the crawl job for https://e: boom"
  ∧ check_crawl_status (some "key") errFirecrawlBehavior "j1" =
      "An error occurred while checking the crawl status for job j1: boom"
  ∧ map_website (some "key") errFirecrawlBehavior "https://e" true =
      "An error occurred while mapping the website https://e: boom"
  ∧ extract_structured_data (some "key") errFirecrawlBehavior ["https://e"] "p"
      JVal.null =
      "An error occurred while extracting structured data: boom" :=
  ⟨c1_error_never_propagates.1 errExaClient "q" none "boom" rfl,
   c1_error_never_propagates.2.1 errExaClient 1700000000 "q" none none none none
     "boom" rfl,
   c1_error_never_propagates.2.2.1 "key" errFirecrawlBehavior "https://e"
     ["markdown"] "boom" rfl,
   c1_error_never_propagates.2.2.2.1 "key" errFirecrawlBehavior "https://e" 10 2
     ["markdown"] "boom" rfl,
   c1_error_never_propagates.2.2.2.2.1 "key" errFirecrawlBehavior "j1" "boom" rfl,
   c1_error_never_propagates.2.2.2.2.2.1 "key" errFirecrawlBehavior "https://e"
     true "boom" rfl,
   c1_error_never_propagates.2.2.2.2.2.2 "key" errFirecrawlBehavior ["https://e"]
     "p" JVal.null "boom" rfl⟩

/-- C2: when the provider's crawl-start response carries no `jobId`, the
report is exactly the crawl-start error sentence followed by the provider's
error string (empty if absent); in particular it begins with
`Error: Failed to start crawl job.` and is not a job-id-bearing report. -/
theorem c2_crawl_start_without_jobid (k : String) (b : FirecrawlBehavior)
    (url : String) (limit max_depth : Int) (formats : List String)
    (cr : CrawlStartResponse)
    (hok : b.crawl_url url limit max_depth formats = .ok cr)
    (hjob : cr.jobId = none) :
    crawl_website (some k) b url limit max_depth formats =
      "Error: Failed to start crawl job. " ++ cr.error.getD ""
  ∧ ∃ rest, crawl_website (some k) b url limit max_depth formats =
      "Error: Failed to start crawl job." ++ rest := by
  have h1 : crawl_website (some k) b url limit max_depth formats =
      "Error: Failed to start crawl job. " ++ cr.error.getD "" := by
    simp [crawl_website, get_firecrawl_app, hok, hjob, truthyOptStr]
  refine ⟨h1, ⟨" " ++ cr.error.getD "", ?_⟩⟩
  rw [h1, ← String.append_assoc]
  rfl

/-- C2 witness: the spec's stub scenario — a crawl-start response with no
`jobId` and a provider error string — yields exactly the error report, which
begins with `Error: Failed to start crawl job.`. -/
theorem c2_crawl_start_without_jobid_witness :
    noJobBehavior.crawl_url "https://example.com" 5 2 ["markdown"] =
      .ok { jobId := none, error := some "quota exceeded" }
  ∧ crawl_website (some "key") noJobBehavior "https://example.com" 5 2 ["markdown"] =
      "Error: Failed to start crawl job. quota exceeded"
  ∧ ∃ rest,
      crawl_website (some "key") noJobBehavior "https://example.com" 5 2 ["markdown"] =
        "Error: Failed to start crawl job." ++ rest :=
  ⟨rfl,
   (c2_crawl_start_without_jobid "key" noJobBehavior "https://example.com" 5 2
     ["markdown"] { jobId := none, error := some "quota exceeded" } rfl rfl).1,
   (c2_crawl_start_without_jobid "key" noJobBehavior "https://example.com" 5 2
     ["markdown"] { jobId := none, error := some "quota exceeded" } rfl rfl).2⟩

/-- C7: a search response whose result sequence is empty formats to exactly
the fixed no-results message. -/
theorem c7_empty_results_fixed_message :
    format_search_results { results := [] } = "No results found." := rfl

/-- C10: when the client's status snapshot is falsy (absent or empty),
`check_crawl_status` returns the fixed crawl-status error report. -/
theorem c10_falsy_status_snapshot (k : String) (b : FirecrawlBehavior)
    (job_id : String) (h : b.check_crawl_status job_id = .ok none) :
    check_crawl_status (some k) b job_id =
      "Error: Failed to retrieve crawl status." := by
  simp [check_crawl_status, get_firecrawl_app, h, format_crawl_status]

/-- C10 witness: a behaviour returning a falsy snapshot produces the fixed
error report. -/
theorem c10_falsy_status_snapshot_witness :
    noStatusBehavior.check_crawl_status "job-1" = .ok none
  ∧ check_crawl_status (some "key") noStatusBehavior "job-1" =
      "Error: Failed to retrieve crawl status." :=
  ⟨rfl, c10_falsy_status_snapshot "key" noStatusBehavior "job-1" rfl⟩

/-- C3 counterexample: `max_age_days = 0` is present (the data model admits
any non-negative integer), yet the translated request carries no
`start_published_date` — the Python truthiness test `if max_age_days:`
treats `0` as absent, so the claim fails as stated for this input. -/
theorem c3_counterexample :
    lookupKey "start_published_date"
      (buildAdvancedSearchArgs 1700000000 none none none (some 0)) = none := by
  simp [buildAdvancedSearchArgs, truthyOptNat, truthyOptList, truthyOptStr,
    websearch_config, lookupKey]

/-- C3 (amended): for every call to `advanced_search_web` with `max_age_days`
present and positive, the translated request carries a
`start_published_date` equal to the resolution instant minus
`max_age_days * 24h`, formatted as an absolute timestamp string of the
shape `YYYY-MM-DDThh:mm:ssZ`, and the relative day count itself is not
attached to the translated request. -/
theorem c3_max_age_translation (now : Nat) (num_results : Option Int)
    (include_domains : Option (List String)) (include_text : Option String)
    (d : Nat) (hd : 0 < d) (_hnow : d * 86400 ≤ now) :
    lookupKey "start_published_date"
        (buildAdvancedSearchArgs now num_results include_domains include_text
          (some d))
      = some (Val.str (formatTimestamp (now - d * 86400)))
  ∧ lookupKey "max_age_days"
        (buildAdvancedSearchArgs now num_results include_domains include_text
          (some d))
      = none
  ∧ ∃ yy mo dd hh mi ss, formatTimestamp (now - d * 86400) =
      zpad 4 yy ++ "-" ++ zpad 2 mo ++ "-" ++ zpad 2 dd ++ "T" ++
        zpad 2 hh ++ ":" ++ zpad 2 mi ++ ":" ++ zpad 2 ss ++ "Z" := by
  have hage : truthyOptNat (some d) = true := by
    simp only [truthyOptNat, bne_iff_ne, ne_eq]
    omega
  refine ⟨?_, ?_, ?_⟩
  · simp only [buildAdvancedSearchArgs, hage, if_true, Option.getD_some]
    rcases include_domains with _ | l <;> rcases include_text with _ | t <;>
      simp [lookupKey, truthyOptList, truthyOptStr, websearch_config] <;>
      split_ifs <;> simp [lookupKey]
  · simp only [buildAdvancedSearchArgs, hage, if_true, Option.getD_some]
    rcases include_domains with _ | l <;> rcases include_text with _ | t <;>
      simp [lookupKey, truthyOptList, truthyOptStr, websearch_config] <;>
      split_ifs <;> simp [lookupKey]
  · exact ⟨_, _, _, _, _, _, rfl⟩

/-- C3 witness: `max_age_days = 30` resolved at instant 1700000000 attaches
`start_published_date = 2023-10-15T22:13:20Z`, exactly 30 days of seconds
earlier, and no relative day count. -/
theorem c3_max_age_translation_witness :
    lookupKey "start_published_date"
        (buildAdvancedSearchArgs 1700000000 none none none (some 30))
      = some (Val.str (formatTimestamp (1700000000 - 30 * 86400)))
  ∧ lookupKey "max_age_days"
        (buildAdvancedSearchArgs 1700000000 none none none (some 30)) = none
  ∧ formatTimestamp (1700000000 - 30 * 86400) = "2023-10-15T22:13:20Z" :=
  ⟨(c3_max_age_translation 1700000000 none none none 30 (by decide)
      (by norm_num)).1,
   (c3_max_age_translation 1700000000 none none none 30 (by decide)
      (by norm_num)).2.1,
   by decide⟩

/-- C4: for `search_web` and `advanced_search_web`, a caller-supplied
(positive) result count is resolved to exactly the caller's value even when
it differs from the configured default; an omitted count resolves to the
configured default of 5. -/
theorem c4_num_results_precedence (n : Int) (hn : 0 < n) :
    lookupKey "num_results" (buildSearchArgs (some n)) = some (Val.int n)
  ∧ lookupKey "num_results" (buildSearchArgs none) =
      some (Val.int websearch_config.default_num_results)
  ∧ websearch_config.default_num_results = 5
  ∧ (∀ (now : Nat) (doms : Option (List String)) (txt : Option String)
      (age : Option Nat),
      lookupKey "num_results"
        (buildAdvancedSearchArgs now (some n) doms txt age) = some (Val.int n))
  ∧ (∀ (now : Nat) (doms : Option (List String)) (txt : Option String)
      (age : Option Nat),
      lookupKey "num_results"
        (buildAdvancedSearchArgs now none doms txt age) = some (Val.int 5)) := by
  have hne : ¬ n = 0 := by omega
  refine ⟨?_, ?_, rfl, ?_, ?_⟩
  · simp [buildSearchArgs, resolve_num_results, lookupKey, hne]
  · simp [buildSearchArgs, resolve_num_results, lookupKey, websearch_config]
  · intro now doms txt age
    simp [buildAdvancedSearchArgs, resolve_num_results, lookupKey, hne]
  · intro now doms txt age
    simp [buildAdvancedSearchArgs, resolve_num_results, lookupKey,
      websearch_config]

/-- C4 witness: a caller-supplied count of 7 (differing from the default 5)
is kept by both operations, and the omitted count resolves to 5. -/
theorem c4_num_results_precedence_witness :
    lookupKey "num_results" (buildSearchArgs (some 7)) = some (Val.int 7)
  ∧ lookupKey "num_results" (buildSearchArgs none) =
      some (Val.int websearch_config.default_num_results)
  ∧ lookupKey "num_results"
      (buildAdvancedSearchArgs 1700000000 (some 7) none none none) =
      some (Val.int 7)
  ∧ lookupKey "num_results"
      (buildAdvancedSearchArgs 1700000000 none none none none) =
      some (Val.int 5) :=
  ⟨(c4_num_results_precedence 7 (by decide)).1,
   (c4_num_results_precedence 7 (by decide)).2.1,
   (c4_num_results_precedence 7 (by decide)).2.2.2.1 1700000000 none none none,
   (c4_num_results_precedence 7 (by decide)).2.2.2.2 1700000000 none none none⟩

/-- C9: a present-but-zero `max_age_days` is treated as absent — the
translated request carries no `start_published_date`. -/
theorem c9_zero_max_age_absent (now : Nat) (num_results : Option Int)
    (include_domains : Option (List String)) (include_text : Option String) :
    lookupKey "start_published_date"
      (buildAdvancedSearchArgs now num_results include_domains include_text
        (some 0)) = none := by
  rcases include_domains with _ | l <;> rcases include_text with _ | t <;>
    simp [buildAdvancedSearchArgs, lookupKey, truthyOptNat, truthyOptList,
      truthyOptStr, websearch_config] <;>
    split_ifs <;> simp [lookupKey]

/-- C5: a search response with `N ≥ 1` entries formats to the header followed
by exactly the `N` entry blocks enumerated with 1-based indices `1..N` in
input order, whatever optional fields each entry has; every block begins
with its own index marker, and an entry without a summary contributes its
title line plus a blank line, so it cannot shift later numbering. -/
theorem c5_enumerated_entries (resp : ExaSearchResponse)
    (h : resp.results ≠ []) :
    format_search_results resp = "### Search Results:\n\n" ++
      concatAll ((enumFrom 1 resp.results).map fun p => searchEntryBlock p.1 p.2)
  ∧ (enumFrom 1 resp.results).map Prod.fst =
      (List.range resp.results.length).map (· + 1)
  ∧ (enumFrom 1 resp.results).map Prod.snd = resp.results
  ∧ (∀ (i : Nat) (r : ExaResultItem), ∃ rest,
      searchEntryBlock i r = "**" ++ toString i ++ ".** " ++ rest)
  ∧ (∀ (i : Nat) (r : ExaResultItem), truthyOptStr r.summary = false →
      searchEntryBlock i r = searchEntryLine i r ++ "\n") := by
  refine ⟨?_, enumFrom_map_fst resp.results 1, enumFrom_map_snd resp.results 1,
    ?_, ?_⟩
  · rcases resp with ⟨rs⟩
    cases rs with
    | nil => exact absurd rfl h
    | cons r rest =>
      simp only [format_search_results, List.isEmpty_cons, Bool.false_eq_true,
        if_false, searchEntriesFrom_eq_concat]
  · intro i r
    refine ⟨("[" ++ (if truthyOptStr r.title then r.title.getD "" else "No title") ++
      "](" ++ r.url ++ ")" ++
      (if truthyOptStr r.published_date then
        " (Published: " ++ r.published_date.getD "" ++ ")"
      else "") ++ "\n") ++
      (if truthyOptStr r.summary then
        "> **Summary:** " ++ r.summary.getD "" ++ "\n\n"
      else "\n"), ?_⟩
    simp only [searchEntryBlock, searchEntryLine, String.append_assoc]
  · intro i r hsum
    simp [searchEntryBlock, hsum]

/-- C5 witness: the spec's two-entry stub (entry 1 with summary and date,
entry 2 with neither) renders as exactly two blocks numbered 1 and 2, the
second keeping its index despite the missing fields. -/
theorem c5_enumerated_entries_witness :
    sampleResults ≠ []
  ∧ format_search_results { results := sampleResults } =
      "### Search Results:\n\n" ++
        concatAll ((enumFrom 1 sampleResults).map fun p =>
          searchEntryBlock p.1 p.2)
  ∧ (enumFrom 1 sampleResults).map Prod.fst = [1, 2]
  ∧ format_search_results { results := sampleResults } =
      "### Search Results:\n\n**1.** [AI News](https://a.example) (Published: 2025-01-01)\n> **Summary:** Key takeaways\n\n**2.** [No title](https://b.example)\n\n" :=
  ⟨by decide,
   (c5_enumerated_entries { results := sampleResults } (by decide)).1,
   by decide,
   ((c5_enumerated_entries { results := sampleResults } (by decide)).1).trans
     (by decide)⟩

/-- C6: a successful map response formats to the heading stating a link
count equal to the length of the returned link list, followed by the
1-based enumeration of the links in response order; with zero links the
report is exactly the heading `Found 0 links:` with no enumerated lines. -/
theorem c6_map_count_matches_list (m : MapResult) (hs : m.success = true) :
    format_mapped_links m = "# Website Map Results\n\n" ++ "Found " ++
      toString (m.links.getD []).length ++ " links:\n\n" ++
      concatAll ((enumFrom 1 (m.links.getD [])).map fun p =>
        toString p.1 ++ ". " ++ p.2 ++ "\n")
  ∧ (enumFrom 1 (m.links.getD [])).map Prod.fst =
      (List.range (m.links.getD []).length).map (· + 1)
  ∧ (enumFrom 1 (m.links.getD [])).map Prod.snd = m.links.getD []
  ∧ (m.links.getD [] = [] →
      format_mapped_links m = "# Website Map Results\n\nFound 0 links:\n\n") := by
  refine ⟨?_, enumFrom_map_fst (m.links.getD []) 1,
    enumFrom_map_snd (m.links.getD []) 1, ?_⟩
  · simp only [format_mapped_links, hs, Bool.not_true, Bool.false_eq_true,
      if_false, mapLinksFrom_eq_concat]
  · intro hl
    simp only [format_mapped_links, hs, Bool.not_true, Bool.false_eq_true,
      if_false, hl]
    rfl

/-- C6 witness: a two-link map result renders `Found 2 links` with lines
numbered 1 and 2; an empty map result renders exactly `Found 0 links:` and
nothing else. -/
theorem c6_map_count_matches_list_witness :
    format_mapped_links ⟨true, none, some ["https://x/a", "https://x/b"]⟩ =
      "# Website Map Results\n\nFound 2 links:\n\n1. https://x/a\n2. https://x/b\n"
  ∧ format_mapped_links ⟨true, none, some []⟩ =
      "# Website Map Results\n\nFound 0 links:\n\n" :=
  ⟨((c6_map_count_matches_list ⟨true, none, some ["https://x/a", "https://x/b"]⟩
      rfl).1).trans (by decide),
   (c6_map_count_matches_list ⟨true, none, some []⟩ rfl).2.2.2 rfl⟩

/-- C8: for every operation, two runs differing only in the credential
supplied at client construction and seeing identical client responses
return identical reports; consequently a credential longer than the
(credential-independent) report never occurs in the report. -/
theorem c8_credential_noninterference :
    (∀ (k k' : Option String)
      (f : String → String → List (String × Val) → Except String ExaSearchResponse)
      (q : String) (n : Option Int),
      search_web ⟨k, f⟩ q n = search_web ⟨k', f⟩ q n)
  ∧ (∀ (k k' : Option String)
      (f : String → String → List (String × Val) → Except String ExaSearchResponse)
      (now : Nat) (q : String) (n : Option Int) (doms : Option (List String))
      (txt : Option String) (age : Option Nat),
      advanced_search_web ⟨k, f⟩ now q n doms txt age =
        advanced_search_web ⟨k', f⟩ now q n doms txt age)
  ∧ (∀ (k k' : String) (b : FirecrawlBehavior) (url : String)
      (formats : List String),
      scrape_url (some k) b url formats = scrape_url (some k') b url formats)
  ∧ (∀ (k k' : String) (b : FirecrawlBehavior) (url : String)
      (limit max_depth : Int) (formats : List String),
      crawl_website (some k) b url limit max_depth formats =
        crawl_website (some k') b url limit max_depth formats)
  ∧ (∀ (k k' : String) (b : FirecrawlBehavior) (job_id : String),
      check_crawl_status (some k) b job_id = check_crawl_status (some k') b job_id)
  ∧ (∀ (k k' : String) (b : FirecrawlBehavior) (url : String) (subs : Bool),
      map_website (some k) b url subs = map_website (some k') b url subs)
  ∧ (∀ (k k' : String) (b : FirecrawlBehavior) (urls : List String)
      (prompt : String) (schema : JVal),
      extract_structured_data (some k) b urls prompt schema =
        extract_structured_data (some k') b urls prompt schema)
  ∧ (∀ (k : String) (b : FirecrawlBehavior) (url : String)
      (formats : List String),
      (scrape_url (some "") b url formats).length < k.length →
      ¬ ∃ pre post, scrape_url (some k) b url formats = pre ++ k ++ post)
  ∧ (∀ (k : String) (b : FirecrawlBehavior) (url : String)
      (limit max_depth : Int) (formats : List String),
      (crawl_website (some "") b url limit max_depth formats).length < k.length →
      ¬ ∃ pre post,
        crawl_website (some k) b url limit max_depth formats = pre ++ k ++ post)
  ∧ (∀ (k : String) (b : FirecrawlBehavior) (job_id : String),
      (check_crawl_status (some "") b job_id).length < k.length →
      ¬ ∃ pre post, check_crawl_status (some k) b job_id = pre ++ k ++ post)
  ∧ (∀ (k : String) (b : FirecrawlBehavior) (url : String) (subs : Bool),
      (map_website (some "") b url subs).length < k.length →
      ¬ ∃ pre post, map_website (some k) b url subs = pre ++ k ++ post)
  ∧ (∀ (k : String) (b : FirecrawlBehavior) (urls : List String)
      (prompt : String) (schema : JVal),
      (extract_structured_data (some "") b urls prompt schema).length < k.length →
      ¬ ∃ pre post,
        extract_structured_data (some k) b urls prompt schema = pre ++ k ++ post)
  ∧ (∀ (k : String)
      (f : String → String → List (String × Val) → Except String ExaSearchResponse)
      (q : String) (n : Option Int),
      (search_web ⟨none, f⟩ q n).length < k.length →
      ¬ ∃ pre post, search_web ⟨some k, f⟩ q n = pre ++ k ++ post)
  ∧ (∀ (k : String)
      (f : String → String → List (String × Val) → Except String ExaSearchResponse)
      (now : Nat) (q : String) (n : Option Int) (doms : Option (List String))
      (txt : Option String) (age : Option Nat),
      (advanced_search_web ⟨none, f⟩ now q n doms txt age).length < k.length →
      ¬ ∃ pre post,
        advanced_search_web ⟨some k, f⟩ now q n doms txt age =
          pre ++ k ++ post) := by
  have E1 : ∀ (k k' : Option String) f (q : String) (n : Option Int),
      search_web ⟨k, f⟩ q n = search_web ⟨k', f⟩ q n :=
    fun _ _ _ _ _ => rfl
  have E2 : ∀ (k k' : Option String) f (now : Nat) (q : String)
      (n : Option Int) doms txt age,
      advanced_search_web ⟨k, f⟩ now q n doms txt age =
        advanced_search_web ⟨k', f⟩ now q n doms txt age :=
    fun _ _ _ _ _ _ _ _ _ => rfl
  have E3 : ∀ (k k' : String) b (url : String) (formats : List String),
      scrape_url (some k) b url formats = scrape_url (some k') b url formats :=
    fun _ _ _ _ _ => rfl
  have E4 : ∀ (k k' : String) b (url : String) (limit max_depth : Int)
      (formats : List String),
      crawl_website (some k) b url limit max_depth formats =
        crawl_website (some k') b url limit max_depth formats :=
    fun _ _ _ _ _ _ _ => rfl
  have E5 : ∀ (k k' : String) b (job_id : String),
      check_crawl_status (some k) b job_id =
        check_crawl_status (some k') b job_id :=
    fun _ _ _ _ => rfl
  have E6 : ∀ (k k' : String) b (url : String) (subs : Bool),
      map_website (some k) b url subs = map_website (some k') b url subs :=
    fun _ _ _ _ _ => rfl
  have E7 : ∀ (k k' : String) b (urls : List String) (prompt : String)
      (schema : JVal),
      extract_structured_data (some k) b urls prompt schema =
        extract_structured_data (some k') b urls prompt schema :=
    fun _ _ _ _ _ _ => rfl
  refine ⟨E1, E2, E3, E4, E5, E6, E7, ?_, ?_, ?_, ?_, ?_, ?_, ?_⟩
  · intro k b url formats h
    rw [E3 k "" b url formats]
    exact not_substring_of_length_lt _ _ h
  · intro k b url limit max_depth formats h
    rw [E4 k "" b url limit max_depth formats]
    exact not_substring_of_length_lt _ _ h
  · intro k b job_id h
    rw [E5 k "" b job_id]
    exact not_substring_of_length_lt _ _ h
  · intro k b url subs h
    rw [E6 k "" b url subs]
    exact not_substring_of_length_lt _ _ h
  · intro k b urls prompt schema h
    rw [E7 k "" b urls prompt schema]
    exact not_substring_of_length_lt _ _ h
  · intro k f q n h
    rw [E1 (some k) none f q n]
    exact not_substring_of_length_lt _ _ h
  · intro k f now q n doms txt age h
    rw [E2 (some k) none f now q n doms txt age]
    exact not_substring_of_length_lt _ _ h

/-- C8 witness: two different credentials produce the identical report for
the same behaviour, and a 100-character credential, longer than the fixed
report of that behaviour, does not occur in the report it produces. -/
theorem c8_credential_noninterference_witness :
    scrape_url (some "key-one") errFirecrawlBehavior "https://e" ["markdown"] =
      scrape_url (some "key-two") errFirecrawlBehavior "https://e" ["markdown"]
  ∧ (scrape_url (some "") errFirecrawlBehavior "https://e" ["markdown"]).length <
      longKey.length
  ∧ ¬ ∃ pre post,
      scrape_url (some longKey) errFirecrawlBehavior "https://e" ["markdown"] =
        pre ++ longKey ++ post :=
  ⟨c8_credential_noninterference.2.2.1 "key-one" "key-two" errFirecrawlBehavior
     "https://e" ["markdown"],
   by decide,
   c8_credential_noninterference.2.2.2.2.2.2.2.1 longKey errFirecrawlBehavior
     "https://e" ["markdown"] (by decide)⟩

end ReActMCP
